import Mathlib

/-!
Shallow embedding of the GeomecFVLib benchmark drivers
(`sealedColumn`, `terzaghi`, `mandel`, `convergence`, `stripfoot`,
`terzaghiDouble`, `stripfootDouble`, `sealedDouble`, `storageDouble`,
`leakingDouble`) and of the two entry points (`mainDimless.cpp`,
`mainDouble.cpp`).

Each driver is straight-line C++ code ending in a single
`for(timeStep=0; timeStep<Nt-1; timeStep++)` loop.  We embed every driver
as a trace of the externally observable calls it issues, in source order:
a fixed pre-loop call list, a per-iteration call list (a function of the
time-step index), and a post-loop export phase.  The classes invoked by
the drivers (`gridDesign`, `coefficientsAssembly`,
`independentTermsAssembly`, `linearSystemSolver`, ...) live outside the
repository snapshot; the drivers' call sequences, boundary-condition
tables, exported-time-step lists and scalar formulas are embedded from
the driver source itself.
-/

namespace GeomecFV

/-- Observable calls a benchmark driver makes, one constructor per call
site kind occurring in the drivers.  `assemblyIndependentTermsArray` and
`setFieldValue`/`setMacroFieldValue` record the time-step argument passed
at the call site. -/
inductive Event
  | gridCreation
  | applyInitialConditions
  | computeLeak (arg : Nat)
  | overrideS12
  | assemblyCoefficientsMatrix
  | assemblyDoublePorosityMatrix
  | assemblyMandelCoefficientsMatrix
  | assemblySparseMatrix
  | addStripfootBCMatrix
  | addMacroStripfootBCMatrix
  | increaseMandelIndependentTermsArray
  | increaseMacroIndependentTermsArray
  | createMacroPressureField
  | luFactorization
  | createPETScArrays
  | zeroPETScArrays
  | assemblyIndependentTermsArray (t : Nat)
  | assemblyMacroIndependentTermsArray (t : Nat)
  | assemblyMandelIndependentTermsArray
  | addStripfootBCRhs
  | addMacroStripfootBCRhs
  | setRHSValue
  | solveLinearSystem
  | setFieldValue (t : Nat)
  | setMacroFieldValue (t : Nat)
  | extractFields
  | rejectInput
  | exportData
  deriving DecidableEq, Repr

/-- The events of the `for(timeStep=0; timeStep<Nt-1; timeStep++)` loop:
iteration bodies concatenated for `timeStep = 0, 1, ..., n-1`. -/
def loopTrace (iter : Nat → List Event) (n : Nat) : List Event :=
  (List.range n).flatMap iter

/-- Every driver's loop body in `part_000` has this shape: assemble the
independent terms (plus variant extras), zero the PETSc buffers, load the
RHS, solve, scatter the solution into the fields, copy the fields out,
and zero the PETSc buffers again. -/
def zeroDiscipline (body : List Event) : Prop :=
  ∃ a b, body =
    a ++ Event.zeroPETScArrays :: Event.setRHSValue ::
      (b ++ [Event.extractFields, Event.zeroPETScArrays])

/-- `b` occurs strictly after `a` in the call list `l`. -/
def followsIn (l : List Event) (a b : Event) : Prop :=
  ∃ l₁ l₂ l₃, l = l₁ ++ a :: l₂ ++ b :: l₃

/-! ### Driver call traces (from src/unnamed/part_000) -/

/-- Pre-loop calls of `sealedColumn` (lines 112–197). -/
def sealedColumnPre : List Event :=
  [.gridCreation, .applyInitialConditions, .assemblyCoefficientsMatrix,
   .luFactorization, .createPETScArrays, .zeroPETScArrays]

/-- Loop body of `sealedColumn` (lines 199–221). -/
def sealedColumnIter (t : Nat) : List Event :=
  [.assemblyIndependentTermsArray t, .zeroPETScArrays, .setRHSValue,
   .solveLinearSystem, .setFieldValue (t+1), .extractFields, .zeroPETScArrays]

/-- Pre-loop calls of `terzaghi` (lines 316–401). -/
def terzaghiPre : List Event := sealedColumnPre

/-- Loop body of `terzaghi` (lines 403–425). -/
def terzaghiIter (t : Nat) : List Event := sealedColumnIter t

/-- Pre-loop calls of `mandel` (lines 523–613). -/
def mandelPre : List Event :=
  [.gridCreation, .applyInitialConditions, .assemblyCoefficientsMatrix,
   .assemblyMandelCoefficientsMatrix, .assemblySparseMatrix,
   .increaseMandelIndependentTermsArray,
   .luFactorization, .createPETScArrays, .zeroPETScArrays]

/-- Loop body of `mandel` (lines 615–638). -/
def mandelIter (t : Nat) : List Event :=
  [.assemblyIndependentTermsArray t, .assemblyMandelIndependentTermsArray,
   .zeroPETScArrays, .setRHSValue, .solveLinearSystem, .setFieldValue (t+1),
   .extractFields, .zeroPETScArrays]

/-- Pre-loop calls of `convergence` (lines 742–827). -/
def convergencePre : List Event := sealedColumnPre

/-- Loop body of `convergence` (lines 829–851). -/
def convergenceIter (t : Nat) : List Event := sealedColumnIter t

/-- Pre-loop calls of `stripfoot` (lines 936–1022). -/
def stripfootPre : List Event :=
  [.gridCreation, .applyInitialConditions, .assemblyCoefficientsMatrix,
   .addStripfootBCMatrix, .luFactorization, .createPETScArrays,
   .zeroPETScArrays]

/-- Loop body of `stripfoot` (lines 1024–1047). -/
def stripfootIter (t : Nat) : List Event :=
  [.assemblyIndependentTermsArray t, .addStripfootBCRhs,
   .zeroPETScArrays, .setRHSValue, .solveLinearSystem, .setFieldValue (t+1),
   .extractFields, .zeroPETScArrays]

/-- Pre-loop calls of `terzaghiDouble` (lines 1147–1233). -/
def terzaghiDoublePre : List Event :=
  [.gridCreation, .computeLeak 11, .assemblyDoublePorosityMatrix,
   .increaseMacroIndependentTermsArray, .createMacroPressureField,
   .luFactorization, .createPETScArrays, .zeroPETScArrays]

/-- Loop body of `terzaghiDouble` (lines 1235–1259). -/
def terzaghiDoubleIter (t : Nat) : List Event :=
  [.assemblyMacroIndependentTermsArray t, .zeroPETScArrays, .setRHSValue,
   .solveLinearSystem, .setFieldValue (t+1), .setMacroFieldValue (t+1),
   .extractFields, .zeroPETScArrays]

/-- Pre-loop calls of `stripfootDouble` (lines 1364–1451). -/
def stripfootDoublePre : List Event :=
  [.gridCreation, .computeLeak 11, .assemblyDoublePorosityMatrix,
   .addStripfootBCMatrix, .addMacroStripfootBCMatrix,
   .increaseMacroIndependentTermsArray, .createMacroPressureField,
   .luFactorization, .createPETScArrays, .zeroPETScArrays]

/-- Loop body of `stripfootDouble` (lines 1453–1479). -/
def stripfootDoubleIter (t : Nat) : List Event :=
  [.assemblyMacroIndependentTermsArray t, .addStripfootBCRhs,
   .addMacroStripfootBCRhs, .zeroPETScArrays, .setRHSValue,
   .solveLinearSystem, .setFieldValue (t+1), .setMacroFieldValue (t+1),
   .extractFields, .zeroPETScArrays]

/-- Pre-loop calls of `sealedDouble` (lines 1581–1666). -/
def sealedDoublePre : List Event := terzaghiDoublePre

/-- Loop body of `sealedDouble` (lines 1668–1692). -/
def sealedDoubleIter (t : Nat) : List Event := terzaghiDoubleIter t

/-- Pre-loop calls of `storageDouble` (lines 1796–1887): the variant
applies initial conditions and computes its leak term with argument 0
(line 1836). -/
def storageDoublePre : List Event :=
  [.gridCreation, .applyInitialConditions, .computeLeak 0,
   .assemblyDoublePorosityMatrix, .increaseMacroIndependentTermsArray,
   .createMacroPressureField, .luFactorization, .createPETScArrays,
   .zeroPETScArrays]

/-- Loop body of `storageDouble` (lines 1889–1913). -/
def storageDoubleIter (t : Nat) : List Event := terzaghiDoubleIter t

/-- Pre-loop calls of `leakingDouble` (lines 2020–2115): initial
conditions, leak term with argument 11 (line 2060), then the S12
override (lines 2066–2067) before assembling the operator. -/
def leakingDoublePre : List Event :=
  [.gridCreation, .applyInitialConditions, .computeLeak 11, .overrideS12,
   .assemblyDoublePorosityMatrix, .increaseMacroIndependentTermsArray,
   .createMacroPressureField, .luFactorization, .createPETScArrays,
   .zeroPETScArrays]

/-- Loop body of `leakingDouble` (lines 2117–2141). -/
def leakingDoubleIter (t : Nat) : List Event := terzaghiDoubleIter t

/-- Post-loop phase common to the drivers: data export only. -/
def exportPost : List Event := [.exportData]

/-- Full trace of `sealedColumn` at time-point count `Nt`. -/
def sealedColumnTrace (Nt : Nat) : List Event :=
  sealedColumnPre ++ loopTrace sealedColumnIter (Nt-1) ++ exportPost

/-- Full trace of `terzaghi` at time-point count `Nt`. -/
def terzaghiTrace (Nt : Nat) : List Event :=
  terzaghiPre ++ loopTrace terzaghiIter (Nt-1) ++ exportPost

/-- Full trace of `mandel` at time-point count `Nt`. -/
def mandelTrace (Nt : Nat) : List Event :=
  mandelPre ++ loopTrace mandelIter (Nt-1) ++ exportPost

/-- Full trace of `convergence` at time-point count `Nt`. -/
def convergenceTrace (Nt : Nat) : List Event :=
  convergencePre ++ loopTrace convergenceIter (Nt-1) ++ exportPost

/-- Full trace of `stripfoot` at time-point count `Nt`. -/
def stripfootTrace (Nt : Nat) : List Event :=
  stripfootPre ++ loopTrace stripfootIter (Nt-1) ++ exportPost

/-- Full trace of `terzaghiDouble` at time-point count `Nt`. -/
def terzaghiDoubleTrace (Nt : Nat) : List Event :=
  terzaghiDoublePre ++ loopTrace terzaghiDoubleIter (Nt-1) ++ exportPost

/-- Full trace of `stripfootDouble` at time-point count `Nt`. -/
def stripfootDoubleTrace (Nt : Nat) : List Event :=
  stripfootDoublePre ++ loopTrace stripfootDoubleIter (Nt-1) ++ exportPost

/-- Full trace of `sealedDouble` at time-point count `Nt`. -/
def sealedDoubleTrace (Nt : Nat) : List Event :=
  sealedDoublePre ++ loopTrace sealedDoubleIter (Nt-1) ++ exportPost

/-- Full trace of `storageDouble` at time-point count `Nt`. -/
def storageDoubleTrace (Nt : Nat) : List Event :=
  storageDoublePre ++ loopTrace storageDoubleIter (Nt-1) ++ exportPost

/-- Full trace of `leakingDouble` at time-point count `Nt`. -/
def leakingDoubleTrace (Nt : Nat) : List Event :=
  leakingDoublePre ++ loopTrace leakingDoubleIter (Nt-1) ++ exportPost

/-! ### Counting lemmas for the loop -/

theorem loopTrace_count (iter : Nat → List Event) (e : Event) (c : Nat)
    (h : ∀ t, (iter t).count e = c) (n : Nat) :
    (loopTrace iter n).count e = n * c := by
  induction n with
  | zero => simp [loopTrace]
  | succ n ih =>
      simp only [loopTrace, List.range_succ, List.flatMap_append,
        List.count_append] at *
      simp [ih, h n, Nat.succ_mul]

theorem loopTrace_not_mem (iter : Nat → List Event) (e : Event)
    (h : ∀ t, e ∉ iter t) (n : Nat) : e ∉ loopTrace iter n := by
  intro hmem
  rcases List.mem_flatMap.mp hmem with ⟨t, _, hin⟩
  exact h t hin

/-! ### Boundary-condition tables

Each driver declares a `bcType` table (a 4-row integer table, one row per
domain side, in the order north, west, south, east) and a `bcValue` table
of the same shape.  The entries below copy the brace initializers from
`part_000`; value entries that are expressions of run parameters
(`sigmab`, `rho_f*g`) are parameters of the Lean definition. -/

/-- `sealedColumn` bcType (lines 91–97). -/
def sealedColumnBcType : List (List Int) :=
  [[-1,-1,0], [1,-1,-1], [-1,1,0], [1,-1,-1]]

/-- `sealedColumn` bcValue (lines 100–106). -/
def sealedColumnBcValue (sigmab rhof g : ℚ) : List (List ℚ) :=
  [[0,sigmab,rhof*g], [0,0,0], [0,0,rhof*g], [0,0,0]]

/-- `terzaghi` bcType (lines 295–301). -/
def terzaghiBcType : List (List Int) :=
  [[-1,-1,1], [1,-1,-1], [-1,1,0], [1,-1,-1]]

/-- `terzaghi` bcValue (lines 304–310). -/
def terzaghiBcValue (sigmab rhof g : ℚ) : List (List ℚ) :=
  [[0,sigmab,0], [0,0,0], [0,0,rhof*g], [0,0,0]]

/-- `mandel` bcType (lines 502–508). -/
def mandelBcType : List (List Int) :=
  [[-1,-1,0], [1,-1,-1], [-1,1,0], [-1,-1,1]]

/-- `mandel` bcValue (lines 511–517). -/
def mandelBcValue (rhof g : ℚ) : List (List ℚ) :=
  [[0,0,rhof*g], [0,0,0], [0,0,rhof*g], [0,0,0]]

/-- `convergence` bcType (lines 721–727). -/
def convergenceBcType : List (List Int) := terzaghiBcType

/-- `convergence` bcValue (lines 730–736). -/
def convergenceBcValue (sigmab rhof g : ℚ) : List (List ℚ) :=
  terzaghiBcValue sigmab rhof g

/-- `stripfoot` bcType (lines 915–921). -/
def stripfootBcType : List (List Int) :=
  [[-1,-1,-1], [1,-1,-1], [-1,1,-1], [1,-1,-1]]

/-- `stripfoot` bcValue (lines 924–930). -/
def stripfootBcValue : List (List ℚ) :=
  [[0,0,0], [0,0,0], [0,0,0], [0,0,0]]

/-- `terzaghiDouble` bcType (lines 1126–1132). -/
def terzaghiDoubleBcType : List (List Int) :=
  [[-1,-1,1,1], [1,-1,-1,-1], [-1,1,-1,-1], [1,-1,-1,-1]]

/-- `terzaghiDouble` bcValue (lines 1135–1141). -/
def terzaghiDoubleBcValue (sigmab : ℚ) : List (List ℚ) :=
  [[0,sigmab,0,0], [0,0,0,0], [0,0,0,0], [0,0,0,0]]

/-- `stripfootDouble` bcType (lines 1343–1349). -/
def stripfootDoubleBcType : List (List Int) :=
  [[-1,-1,-1,-1], [1,-1,-1,-1], [-1,1,-1,-1], [1,-1,-1,-1]]

/-- `stripfootDouble` bcValue (lines 1352–1358). -/
def stripfootDoubleBcValue : List (List ℚ) :=
  [[0,0,0,0], [0,0,0,0], [0,0,0,0], [0,0,0,0]]

/-- `sealedDouble` bcType (lines 1560–1566). -/
def sealedDoubleBcType : List (List Int) := stripfootDoubleBcType

/-- `sealedDouble` bcValue (lines 1569–1575). -/
def sealedDoubleBcValue (sigmab : ℚ) : List (List ℚ) :=
  terzaghiDoubleBcValue sigmab

/-- `storageDouble` bcType (lines 1775–1781). -/
def storageDoubleBcType : List (List Int) := terzaghiDoubleBcType

/-- `storageDouble` bcValue (lines 1784–1790). -/
def storageDoubleBcValue (sigmab : ℚ) : List (List ℚ) :=
  terzaghiDoubleBcValue sigmab

/-- `leakingDouble` bcType (lines 1999–2005). -/
def leakingDoubleBcType : List (List Int) := terzaghiDoubleBcType

/-- `leakingDouble` bcValue (lines 2008–2014). -/
def leakingDoubleBcValue (sigmab : ℚ) : List (List ℚ) :=
  terzaghiDoubleBcValue sigmab

/-- Well-formedness of a driver's boundary-condition pair: 4 rows on each
side, every row of both tables of width `K`, and every type entry drawn
from the fixed enumeration 1 (Dirichlet) / 0 (Neumann) / −1
(stress-or-flux-coupled). -/
def wellFormedBC (bcType : List (List Int)) (bcValue : List (List ℚ))
    (K : Nat) : Prop :=
  bcType.length = 4 ∧ bcValue.length = 4 ∧
  bcType.map List.length = List.replicate 4 K ∧
  bcValue.map List.length = List.replicate 4 K ∧
  (∀ row ∈ bcType, ∀ x ∈ row, x = 1 ∨ x = 0 ∨ x = -1)

/-! ### Exported time-step lists

The `exportedTimeSteps` initializers and the `if(Nt==2)` collapse from
the DATA PROCESSING sections of the drivers.  The C++ entries are `int`
expressions of `Nt`; for the runs the code makes (`Nt ≥ 1`) the C++
integer division agrees with `Nat` division. -/

/-- `sealedColumn` exportedTimeSteps (lines 230–236): no `Nt==2` branch. -/
def sealedColumnExportedTimeSteps (Nt : Nat) : List Nat :=
  [1, (Nt-1)/8, (Nt-1)/2, Nt-1]

/-- `terzaghi` exportedTimeSteps (lines 434–445). -/
def terzaghiExportedTimeSteps (Nt : Nat) : List Nat :=
  if Nt = 2 then [1] else [1, (Nt-1)/8, (Nt-1)/2, Nt-1]

/-- `mandel` exportedTimeSteps (lines 647–658). -/
def mandelExportedTimeSteps (Nt : Nat) : List Nat :=
  if Nt = 2 then [1] else [1, (Nt-1)/16, (Nt-1)/4, Nt-1]

/-- `stripfoot` exportedTimeSteps (lines 1056–1067). -/
def stripfootExportedTimeSteps (Nt : Nat) : List Nat :=
  if Nt = 2 then [1] else [1, (Nt-1)/8, (Nt-1)/2, Nt-1]

/-- `terzaghiDouble` exportedTimeSteps (lines 1268–1279). -/
def terzaghiDoubleExportedTimeSteps (Nt : Nat) : List Nat :=
  if Nt = 2 then [1] else [1, (Nt-1)/8, (Nt-1)/2, Nt-1]

/-- `stripfootDouble` exportedTimeSteps (lines 1488–1499). -/
def stripfootDoubleExportedTimeSteps (Nt : Nat) : List Nat :=
  if Nt = 2 then [1] else [1, (Nt-1)/8, (Nt-1)/2, Nt-1]

/-- `sealedDouble` exportedTimeSteps (lines 1701–1712): the first three
initializer entries are commented out in the source. -/
def sealedDoubleExportedTimeSteps (Nt : Nat) : List Nat :=
  if Nt = 2 then [1] else [Nt-1]

/-- `storageDouble` exportedTimeSteps (lines 1922–1936). -/
def storageDoubleExportedTimeSteps (Nt : Nat) : List Nat :=
  if Nt = 2 then [1] else [1, 2, 3, 4, 125, 250, 500]

/-- `leakingDouble` exportedTimeSteps (lines 2150–2161). -/
def leakingDoubleExportedTimeSteps (Nt : Nat) : List Nat :=
  if Nt = 2 then [1] else [1, 62, 125, 500]

/-! ### Dataflow of the solve loop

Every driver's loop body has the same dataflow: the independent-terms
array is recomputed by `assemblyIndependentTermsArray` from the current
`uField`/`vField`/`pField` and the time-step index, then the solve
overwrites the fields.  We embed this as state passing over the pair
(fields, independentTermsArray); `assembleRHS` abstracts the
`independentTermsAssembly` computation (its class is outside the
snapshot) and `solveSys` abstracts the `setRHSValue` /
`solveLinearSystem` / `setFieldValue` / field copy-out sequence. -/

section SolveLoop

variable {F R : Type}

/-- One iteration of a driver's time loop: rebuild the RHS from the
current fields and the time-step index, then solve and overwrite the
fields. -/
def loopBody (assembleRHS : F → Nat → R) (solveSys : R → F)
    (s : F × R) (t : Nat) : F × R :=
  (solveSys (assembleRHS s.1 t), assembleRHS s.1 t)

/-- The driver loop `for(timeStep=0; timeStep<Nt-1; timeStep++)`: fold
the body over `timeStep = 0..n-1`, starting from the fields produced by
the initial conditions and whatever content the declared-but-unset
`independentTermsArray` variable holds. -/
def runLoop (assembleRHS : F → Nat → R) (solveSys : R → F)
    (n : Nat) (s : F × R) : F × R :=
  (List.range n).foldl (loopBody assembleRHS solveSys) s

/-- The fields after `n` completed time steps, defined by the solve
recurrence alone, with no reference to any carried RHS buffer. -/
def fieldsAfter (assembleRHS : F → Nat → R) (solveSys : R → F)
    (f0 : F) : Nat → F
  | 0 => f0
  | n+1 => solveSys (assembleRHS (fieldsAfter assembleRHS solveSys f0 n) n)

end SolveLoop

/-! ### Spec-modelled solver state and mesh time step -/

/-- Modelled from the spec: the `linearSystemSolver` class is not under
src/ (only its call sites are); §4.4 specifies a state machine with
states Unfactored → Factored, `factorize` performing that transition and
`solve_step` being valid only in the Factored state. -/
inductive SolverPhase
  | unfactored
  | factored
  deriving DecidableEq, Repr

/-- Modelled from the spec: `factorize(operator)` consumes the operator
once and transitions Unfactored→Factored. -/
def coefficientsMatrixLUFactorization (_s : SolverPhase) : SolverPhase :=
  .factored

/-- Modelled from the spec: the state-contract error reported when
`solve_step` is called before `factorize`. -/
def solveContractError : String :=
  "solve_step called in Unfactored state"

/-- Modelled from the spec: `solve_step(rhs)` performs the triangular
solve against the stored factorization (abstracted as `applySolve`,
since the solver class is outside the snapshot) only in the Factored
state, and fails with a state-contract error otherwise. -/
def solveLinearSystemStep (applySolve : List ℚ → List ℚ)
    (s : SolverPhase) (rhs : List ℚ) : Except String (List ℚ) :=
  match s with
  | .factored => .ok (applySolve rhs)
  | .unfactored => .error solveContractError

/-- Modelled from the spec: the `gridDesign` class (Mesh Builder) is not
under src/; §4.1 gives the uniform time-step size dt = totalTime/(steps−1),
the same formula `mainDimless.cpp` line 111 uses for the exported dt. -/
def gridDesign_dt (Lt : ℚ) (Nt : Nat) : ℚ :=
  Lt / ((Nt : ℚ) - 1)

/-! ### The mainDimless entry point (src/source/mainDimless.cpp)

`main` reads the nine material-property numbers from the properties file
(lines 39–47), derives scalar diagnostics from them (lines 54–84), and
then, for each of the four entries of `timestepSize`, calls `terzaghi`
with `Nt = 2` (lines 108–122).  No branch anywhere inspects the property
values: the run sequence is the same for every property bundle. -/

/-- The material-property bundle read by `mainDimless.cpp` lines 39–47
(the `pairName` string field is omitted; it never reaches the core). -/
structure PoroelasticProperties where
  shearModulus : ℚ
  bulkModulus : ℚ
  porosity : ℚ
  permeability : ℚ
  macroPorosity : ℚ
  macroPermeability : ℚ
  solidBulkModulus : ℚ
  solidDensity : ℚ
  fluidBulkModulus : ℚ
  fluidViscosity : ℚ
  fluidDensity : ℚ
  deriving DecidableEq, Repr

/-- The property bundle is invalid per spec §6 when a modulus, a
permeability, or the fluid viscosity is zero or negative. -/
def invalidProperties (p : PoroelasticProperties) : Prop :=
  p.shearModulus ≤ 0 ∨ p.bulkModulus ≤ 0 ∨ p.solidBulkModulus ≤ 0 ∨
  p.fluidBulkModulus ≤ 0 ∨ p.permeability ≤ 0 ∨ p.fluidViscosity ≤ 0

instance : DecidablePred invalidProperties := fun p => by
  unfold invalidProperties; infer_instance

/-- The `timestepSize` table of `mainDimless.cpp` lines 78–84. -/
def timestepSizes : List ℚ := [1/4, 1/10, 1/20, 1/100]

/-- The run sequence of `mainDimless.cpp`: after the property import the
program proceeds unconditionally — one `terzaghi` run with `Nt = 2` per
`timestepSize` entry (lines 108–122); the property values are read into
`myProperties` and forwarded, never validated. -/
def mainDimlessRun (_props : PoroelasticProperties) : List Event :=
  timestepSizes.flatMap (fun _ => terzaghiTrace 2)

/-! ### Double-porosity variant configuration (C9) -/

/-- The S12 override of `leakingDouble` (lines 2066–2067):
`M = 2*G+lambda; S12 = -psiPore*alpha*psiFrac*alpha/M`. -/
def leakingDouble_S12 (psiPore psiFrac alpha G lambda : ℚ) : ℚ :=
  let M := 2*G + lambda;
  (-psiPore*alpha*psiFrac*alpha)/M

/-! ### Helper lemmas -/

/-- Factorization/solve bookkeeping of one driver: the pre-loop phase
factorizes exactly once and never solves, the `n`-iteration loop never
factorizes and solves exactly `n` times, and the export phase does
neither. -/
def factorizeOnce (pre post : List Event) (iter : Nat → List Event)
    (n : Nat) : Prop :=
  pre.count Event.luFactorization = 1 ∧
  pre.count Event.solveLinearSystem = 0 ∧
  (loopTrace iter n).count Event.luFactorization = 0 ∧
  (loopTrace iter n).count Event.solveLinearSystem = n ∧
  post.count Event.luFactorization = 0 ∧
  post.count Event.solveLinearSystem = 0

theorem factorizeOnce_of_counts (pre post : List Event)
    (iter : Nat → List Event) (n : Nat)
    (h1 : pre.count Event.luFactorization = 1)
    (h2 : pre.count Event.solveLinearSystem = 0)
    (h3 : ∀ t, (iter t).count Event.luFactorization = 0)
    (h4 : ∀ t, (iter t).count Event.solveLinearSystem = 1)
    (h5 : post.count Event.luFactorization = 0)
    (h6 : post.count Event.solveLinearSystem = 0) :
    factorizeOnce pre post iter n := by
  refine ⟨h1, h2, ?_, ?_, h5, h6⟩
  · simpa using loopTrace_count iter Event.luFactorization 0 h3 n
  · simpa using loopTrace_count iter Event.solveLinearSystem 1 h4 n

theorem not_mem_trace (e : Event) (pre post : List Event)
    (iter : Nat → List Event) (n : Nat)
    (h1 : e ∉ pre) (h2 : ∀ t, e ∉ iter t) (h3 : e ∉ post) :
    e ∉ pre ++ loopTrace iter n ++ post := by
  intro h
  rcases List.mem_append.mp h with h | h
  · rcases List.mem_append.mp h with h | h
    · exact h1 h
    · exact loopTrace_not_mem iter e h2 n h
  · exact h3 h

theorem runLoop_succ {F R : Type} (a : F → Nat → R) (s : R → F)
    (n : Nat) (st : F × R) :
    runLoop a s (n+1) st = loopBody a s (runLoop a s n st) n := by
  simp [runLoop, List.range_succ]

theorem runLoop_fst {F R : Type} (a : F → Nat → R) (s : R → F)
    (n : Nat) (f0 : F) (r0 : R) :
    (runLoop a s n (f0, r0)).1 = fieldsAfter a s f0 n := by
  induction n with
  | zero => rfl
  | succ n ih => rw [runLoop_succ, loopBody, fieldsAfter, ih]

/-! ### The claims -/

/-- C1: in every benchmark driver the trace decomposes as a pre-loop
phase, the `Nt−1`-iteration time loop, and an export phase; the LU
factorization is called exactly once, in the pre-loop phase, the loop
performs exactly `Nt−1` linear solves, and neither the loop nor the
export phase ever factorizes. -/
theorem benchmark_factorizes_once_before_time_loop (Nt : Nat) :
    (sealedColumnTrace Nt =
        sealedColumnPre ++ (loopTrace sealedColumnIter (Nt-1) ++ exportPost) ∧
      factorizeOnce sealedColumnPre exportPost sealedColumnIter (Nt-1)) ∧
    (terzaghiTrace Nt =
        terzaghiPre ++ (loopTrace terzaghiIter (Nt-1) ++ exportPost) ∧
      factorizeOnce terzaghiPre exportPost terzaghiIter (Nt-1)) ∧
    (mandelTrace Nt =
        mandelPre ++ (loopTrace mandelIter (Nt-1) ++ exportPost) ∧
      factorizeOnce mandelPre exportPost mandelIter (Nt-1)) ∧
    (convergenceTrace Nt =
        convergencePre ++ (loopTrace convergenceIter (Nt-1) ++ exportPost) ∧
      factorizeOnce convergencePre exportPost convergenceIter (Nt-1)) ∧
    (stripfootTrace Nt =
        stripfootPre ++ (loopTrace stripfootIter (Nt-1) ++ exportPost) ∧
      factorizeOnce stripfootPre exportPost stripfootIter (Nt-1)) ∧
    (terzaghiDoubleTrace Nt =
        terzaghiDoublePre ++ (loopTrace terzaghiDoubleIter (Nt-1) ++ exportPost) ∧
      factorizeOnce terzaghiDoublePre exportPost terzaghiDoubleIter (Nt-1)) ∧
    (stripfootDoubleTrace Nt =
        stripfootDoublePre ++ (loopTrace stripfootDoubleIter (Nt-1) ++ exportPost) ∧
      factorizeOnce stripfootDoublePre exportPost stripfootDoubleIter (Nt-1)) ∧
    (sealedDoubleTrace Nt =
        sealedDoublePre ++ (loopTrace sealedDoubleIter (Nt-1) ++ exportPost) ∧
      factorizeOnce sealedDoublePre exportPost sealedDoubleIter (Nt-1)) ∧
    (storageDoubleTrace Nt =
        storageDoublePre ++ (loopTrace storageDoubleIter (Nt-1) ++ exportPost) ∧
      factorizeOnce storageDoublePre exportPost storageDoubleIter (Nt-1)) ∧
    (leakingDoubleTrace Nt =
        leakingDoublePre ++ (loopTrace leakingDoubleIter (Nt-1) ++ exportPost) ∧
      factorizeOnce leakingDoublePre exportPost leakingDoubleIter (Nt-1)) := by
  refine ⟨⟨rfl, ?_⟩, ⟨rfl, ?_⟩, ⟨rfl, ?_⟩, ⟨rfl, ?_⟩, ⟨rfl, ?_⟩,
    ⟨rfl, ?_⟩, ⟨rfl, ?_⟩, ⟨rfl, ?_⟩, ⟨rfl, ?_⟩, ⟨rfl, ?_⟩⟩ <;>
  exact factorizeOnce_of_counts _ _ _ _ (by decide) (by decide)
    (fun t => rfl) (fun t => rfl) (by decide) (by decide)

/-- C2: in the shared driver loop, the field state after `n` iterations
is `fieldsAfter ... n`, independent of the initial content `r0` of the
carried `independentTermsArray` variable, and the RHS used by iteration
`n` is `assembleRHS` applied to the fields produced by the immediately
preceding solve, never an increment of the previous RHS. -/
theorem rhs_rebuilt_each_step_from_previous_fields {F R : Type}
    (assembleRHS : F → Nat → R) (solveSys : R → F)
    (n : Nat) (f0 : F) (r0 : R) :
    (runLoop assembleRHS solveSys n (f0, r0)).1 =
      fieldsAfter assembleRHS solveSys f0 n ∧
    (runLoop assembleRHS solveSys (n+1) (f0, r0)).2 =
      assembleRHS (fieldsAfter assembleRHS solveSys f0 n) n := by
  refine ⟨runLoop_fst assembleRHS solveSys n f0 r0, ?_⟩
  rw [runLoop_succ, loopBody, runLoop_fst]

/-- C3: in every benchmark variant with extensions, the variant-specific
operator and RHS calls come strictly after the corresponding base
assembly call — `assemblyMandelCoefficientsMatrix` after
`assemblyCoefficientsMatrix` and `assemblyMandelIndependentTermsArray`
after `assemblyIndependentTermsArray` in `mandel`; `addStripfootBC`
after the base assemblies in `stripfoot`; and both `addStripfootBC` and
`addMacroStripfootBC` after the base assemblies in `stripfootDouble`. -/
theorem variant_assembly_follows_base_assembly :
    followsIn mandelPre Event.assemblyCoefficientsMatrix
      Event.assemblyMandelCoefficientsMatrix ∧
    (∀ t, followsIn (mandelIter t) (Event.assemblyIndependentTermsArray t)
      Event.assemblyMandelIndependentTermsArray) ∧
    followsIn stripfootPre Event.assemblyCoefficientsMatrix
      Event.addStripfootBCMatrix ∧
    (∀ t, followsIn (stripfootIter t) (Event.assemblyIndependentTermsArray t)
      Event.addStripfootBCRhs) ∧
    followsIn stripfootDoublePre Event.assemblyDoublePorosityMatrix
      Event.addStripfootBCMatrix ∧
    followsIn stripfootDoublePre Event.assemblyDoublePorosityMatrix
      Event.addMacroStripfootBCMatrix ∧
    (∀ t, followsIn (stripfootDoubleIter t)
      (Event.assemblyMacroIndependentTermsArray t) Event.addStripfootBCRhs) ∧
    (∀ t, followsIn (stripfootDoubleIter t)
      (Event.assemblyMacroIndependentTermsArray t)
      Event.addMacroStripfootBCRhs) := by
  refine ⟨⟨[.gridCreation, .applyInitialConditions], [],
      [.assemblySparseMatrix, .increaseMandelIndependentTermsArray,
       .luFactorization, .createPETScArrays, .zeroPETScArrays], rfl⟩,
    fun t => ⟨[], [],
      [.zeroPETScArrays, .setRHSValue, .solveLinearSystem,
       .setFieldValue (t+1), .extractFields, .zeroPETScArrays], rfl⟩,
    ⟨[.gridCreation, .applyInitialConditions], [],
      [.luFactorization, .createPETScArrays, .zeroPETScArrays], rfl⟩,
    fun t => ⟨[], [],
      [.zeroPETScArrays, .setRHSValue, .solveLinearSystem,
       .setFieldValue (t+1), .extractFields, .zeroPETScArrays], rfl⟩,
    ⟨[.gridCreation, .computeLeak 11], [],
      [.addMacroStripfootBCMatrix, .increaseMacroIndependentTermsArray,
       .createMacroPressureField, .luFactorization, .createPETScArrays,
       .zeroPETScArrays], rfl⟩,
    ⟨[.gridCreation, .computeLeak 11], [.addStripfootBCMatrix],
      [.increaseMacroIndependentTermsArray, .createMacroPressureField,
       .luFactorization, .createPETScArrays, .zeroPETScArrays], rfl⟩,
    fun t => ⟨[], [],
      [.addMacroStripfootBCRhs, .zeroPETScArrays, .setRHSValue,
       .solveLinearSystem, .setFieldValue (t+1), .setMacroFieldValue (t+1),
       .extractFields, .zeroPETScArrays], rfl⟩,
    fun t => ⟨[], [.addStripfootBCRhs],
      [.zeroPETScArrays, .setRHSValue, .solveLinearSystem,
       .setFieldValue (t+1), .setMacroFieldValue (t+1),
       .extractFields, .zeroPETScArrays], rfl⟩⟩

/-- C4: every driver's loop body zeroes the PETSc working buffers
immediately before the RHS is loaded and again as the last call after
the solution fields are copied out, on every iteration. -/
theorem petsc_buffers_zeroed_each_iteration (t : Nat) :
    zeroDiscipline (sealedColumnIter t) ∧
    zeroDiscipline (terzaghiIter t) ∧
    zeroDiscipline (mandelIter t) ∧
    zeroDiscipline (convergenceIter t) ∧
    zeroDiscipline (stripfootIter t) ∧
    zeroDiscipline (terzaghiDoubleIter t) ∧
    zeroDiscipline (stripfootDoubleIter t) ∧
    zeroDiscipline (sealedDoubleIter t) ∧
    zeroDiscipline (storageDoubleIter t) ∧
    zeroDiscipline (leakingDoubleIter t) := by
  refine ⟨⟨[.assemblyIndependentTermsArray t],
      [.solveLinearSystem, .setFieldValue (t+1)], rfl⟩,
    ⟨[.assemblyIndependentTermsArray t],
      [.solveLinearSystem, .setFieldValue (t+1)], rfl⟩,
    ⟨[.assemblyIndependentTermsArray t, .assemblyMandelIndependentTermsArray],
      [.solveLinearSystem, .setFieldValue (t+1)], rfl⟩,
    ⟨[.assemblyIndependentTermsArray t],
      [.solveLinearSystem, .setFieldValue (t+1)], rfl⟩,
    ⟨[.assemblyIndependentTermsArray t, .addStripfootBCRhs],
      [.solveLinearSystem, .setFieldValue (t+1)], rfl⟩,
    ⟨[.assemblyMacroIndependentTermsArray t],
      [.solveLinearSystem, .setFieldValue (t+1), .setMacroFieldValue (t+1)],
      rfl⟩,
    ⟨[.assemblyMacroIndependentTermsArray t, .addStripfootBCRhs,
        .addMacroStripfootBCRhs],
      [.solveLinearSystem, .setFieldValue (t+1), .setMacroFieldValue (t+1)],
      rfl⟩,
    ⟨[.assemblyMacroIndependentTermsArray t],
      [.solveLinearSystem, .setFieldValue (t+1), .setMacroFieldValue (t+1)],
      rfl⟩,
    ⟨[.assemblyMacroIndependentTermsArray t],
      [.solveLinearSystem, .setFieldValue (t+1), .setMacroFieldValue (t+1)],
      rfl⟩,
    ⟨[.assemblyMacroIndependentTermsArray t],
      [.solveLinearSystem, .setFieldValue (t+1), .setMacroFieldValue (t+1)],
      rfl⟩⟩

/-- C5: every driver's boundary-condition table pair is a 4-row table in
the fixed side ordering with matching 4×K shapes (K = 3 for the
single-porosity drivers, K = 4 for the double-porosity drivers), and
every type entry lies in the enumeration 1, 0, −1. -/
theorem bc_tables_well_formed (sigmab rhof g : ℚ) :
    wellFormedBC sealedColumnBcType (sealedColumnBcValue sigmab rhof g) 3 ∧
    wellFormedBC terzaghiBcType (terzaghiBcValue sigmab rhof g) 3 ∧
    wellFormedBC mandelBcType (mandelBcValue rhof g) 3 ∧
    wellFormedBC convergenceBcType (convergenceBcValue sigmab rhof g) 3 ∧
    wellFormedBC stripfootBcType stripfootBcValue 3 ∧
    wellFormedBC terzaghiDoubleBcType (terzaghiDoubleBcValue sigmab) 4 ∧
    wellFormedBC stripfootDoubleBcType stripfootDoubleBcValue 4 ∧
    wellFormedBC sealedDoubleBcType (sealedDoubleBcValue sigmab) 4 ∧
    wellFormedBC storageDoubleBcType (storageDoubleBcValue sigmab) 4 ∧
    wellFormedBC leakingDoubleBcType (leakingDoubleBcValue sigmab) 4 := by
  refine ⟨?_, ?_, ?_, ?_, ?_, ?_, ?_, ?_, ?_, ?_⟩ <;>
  exact ⟨rfl, rfl, rfl, rfl, by decide⟩

/-- C6: for a run with `Nt ≥ 2` time points and total simulated time
`Lt`, the Mesh Builder's time-step size equals `Lt/(Nt−1)`: it is the
unique value whose product with `Nt−1` recovers `Lt`. -/
theorem mesh_dt_is_total_time_over_steps (Lt : ℚ) (Nt : Nat)
    (h : 2 ≤ Nt) :
    gridDesign_dt Lt Nt = Lt / ((Nt : ℚ) - 1) ∧
    gridDesign_dt Lt Nt * ((Nt : ℚ) - 1) = Lt := by
  have hne : (Nt : ℚ) - 1 ≠ 0 := by
    have h2 : (2 : ℚ) ≤ (Nt : ℚ) := by exact_mod_cast h
    intro hz
    nlinarith
  exact ⟨rfl, div_mul_cancel₀ Lt hne⟩

/-- Witness for C6 at `Lt = 6`, `Nt = 3`. -/
theorem mesh_dt_is_total_time_over_steps_witness :
    2 ≤ 3 ∧
    (gridDesign_dt 6 3 = 6 / ((3 : ℚ) - 1) ∧
      gridDesign_dt 6 3 * ((3 : ℚ) - 1) = 6) :=
  ⟨by decide, mesh_dt_is_total_time_over_steps 6 3 (by decide)⟩

/-- C7: calling the triangular solve in the Unfactored state fails with
the state-contract error and never returns a result. -/
theorem solve_without_factorization_errors
    (applySolve : List ℚ → List ℚ) (rhs : List ℚ) :
    solveLinearSystemStep applySolve SolverPhase.unfactored rhs =
      Except.error solveContractError ∧
    ∀ y, solveLinearSystemStep applySolve SolverPhase.unfactored rhs ≠
      Except.ok y := by
  refine ⟨rfl, fun y hy => ?_⟩
  simp [solveLinearSystemStep] at hy

/-- A concrete property bundle with a zero shear modulus and a negative
permeability — invalid per spec §6. -/
def invalidPropsExample : PoroelasticProperties :=
  { shearModulus := 0
    bulkModulus := 1
    porosity := 1/2
    permeability := -1
    macroPorosity := 1/4
    macroPermeability := 1
    solidBulkModulus := 1
    solidDensity := 1
    fluidBulkModulus := 1
    fluidViscosity := 1
    fluidDensity := 1 }

/-- C8 counterexample: with a property bundle whose shear modulus is
zero and whose permeability is negative, `mainDimless` still proceeds
to grid creation (and assembly) and never rejects the input — refuting
the claim that such bundles are rejected before grid creation. -/
theorem invalid_properties_run_proceeds :
    invalidProperties invalidPropsExample ∧
    Event.gridCreation ∈ mainDimlessRun invalidPropsExample ∧
    Event.assemblyCoefficientsMatrix ∈ mainDimlessRun invalidPropsExample ∧
    Event.rejectInput ∉ mainDimlessRun invalidPropsExample := by
  refine ⟨?_, ?_, ?_, ?_⟩ <;> decide

/-- C8 amended: `mainDimless` performs no validation of the
material-property bundle — its run sequence is the same for every
bundle, always reaches grid creation and operator assembly, and
contains no rejection, whether or not the bundle is invalid. -/
theorem main_never_validates_properties
    (p q : PoroelasticProperties) :
    mainDimlessRun p = mainDimlessRun q ∧
    Event.gridCreation ∈ mainDimlessRun p ∧
    Event.assemblyCoefficientsMatrix ∈ mainDimlessRun p ∧
    Event.rejectInput ∉ mainDimlessRun p := by
  refine ⟨rfl, ?_, ?_, ?_⟩ <;> simp only [mainDimlessRun] <;> decide

/-- C9: `storageDouble` computes its leak term with argument 0 while
the other four double-porosity variants use argument 11; `leakingDouble`
alone performs the S12 override, before assembling the operator, and
its override equals −psiPore·alpha·psiFrac·alpha/(2G+lambda). -/
theorem double_porosity_leak_conventions (Nt : Nat) :
    (Event.computeLeak 0 ∈ storageDoubleTrace Nt ∧
      Event.computeLeak 11 ∉ storageDoubleTrace Nt) ∧
    Event.computeLeak 11 ∈ terzaghiDoubleTrace Nt ∧
    Event.computeLeak 11 ∈ stripfootDoubleTrace Nt ∧
    Event.computeLeak 11 ∈ sealedDoubleTrace Nt ∧
    Event.computeLeak 11 ∈ leakingDoubleTrace Nt ∧
    Event.overrideS12 ∈ leakingDoubleTrace Nt ∧
    followsIn leakingDoublePre Event.overrideS12
      Event.assemblyDoublePorosityMatrix ∧
    Event.overrideS12 ∉ terzaghiDoubleTrace Nt ∧
    Event.overrideS12 ∉ stripfootDoubleTrace Nt ∧
    Event.overrideS12 ∉ sealedDoubleTrace Nt ∧
    Event.overrideS12 ∉ storageDoubleTrace Nt ∧
    (∀ psiPore psiFrac alpha G lambda : ℚ,
      leakingDouble_S12 psiPore psiFrac alpha G lambda =
        -(psiPore * alpha * psiFrac * alpha) / (2*G + lambda)) := by
  refine ⟨⟨List.mem_append_left _ (List.mem_append_left _ (by decide)), ?_⟩,
    List.mem_append_left _ (List.mem_append_left _ (by decide)),
    List.mem_append_left _ (List.mem_append_left _ (by decide)),
    List.mem_append_left _ (List.mem_append_left _ (by decide)),
    List.mem_append_left _ (List.mem_append_left _ (by decide)),
    List.mem_append_left _ (List.mem_append_left _ (by decide)),
    ⟨[.gridCreation, .applyInitialConditions, .computeLeak 11], [],
      [.increaseMacroIndependentTermsArray, .createMacroPressureField,
       .luFactorization, .createPETScArrays, .zeroPETScArrays], rfl⟩,
    ?_, ?_, ?_, ?_, ?_⟩
  · exact not_mem_trace _ _ _ _ _ (by decide)
      (fun t => by simp [storageDoubleIter, terzaghiDoubleIter]) (by decide)
  · exact not_mem_trace _ _ _ _ _ (by decide)
      (fun t => by simp [terzaghiDoubleIter]) (by decide)
  · exact not_mem_trace _ _ _ _ _ (by decide)
      (fun t => by simp [stripfootDoubleIter]) (by decide)
  · exact not_mem_trace _ _ _ _ _ (by decide)
      (fun t => by simp [sealedDoubleIter, terzaghiDoubleIter]) (by decide)
  · exact not_mem_trace _ _ _ _ _ (by decide)
      (fun t => by simp [storageDoubleIter, terzaghiDoubleIter]) (by decide)
  · intro psiPore psiFrac alpha G lambda
    unfold leakingDouble_S12
    ring

/-- C10: at `Nt = 2` the exported-time-step lists of `terzaghi`,
`mandel`, `stripfoot` and every double-porosity variant collapse to the
single step 1; `sealedColumn` has no collapse branch, keeps its
four-entry list for every `Nt`, and at `Nt = 2` that list contains the
time-step index 0 twice. -/
theorem exported_steps_collapse_at_two_time_points :
    terzaghiExportedTimeSteps 2 = [1] ∧
    mandelExportedTimeSteps 2 = [1] ∧
    stripfootExportedTimeSteps 2 = [1] ∧
    terzaghiDoubleExportedTimeSteps 2 = [1] ∧
    stripfootDoubleExportedTimeSteps 2 = [1] ∧
    sealedDoubleExportedTimeSteps 2 = [1] ∧
    storageDoubleExportedTimeSteps 2 = [1] ∧
    leakingDoubleExportedTimeSteps 2 = [1] ∧
    (∀ Nt, sealedColumnExportedTimeSteps Nt =
      [1, (Nt-1)/8, (Nt-1)/2, Nt-1]) ∧
    sealedColumnExportedTimeSteps 2 = [1, 0, 0, 1] ∧
    (sealedColumnExportedTimeSteps 2).count 0 = 2 := by
  exact ⟨by decide, by decide, by decide, by decide, by decide, by decide,
    by decide, by decide, fun Nt => rfl, by decide, by decide⟩

end GeomecFV
